import Mathlib

/-!
Verification of the Destiny 2 Home Assistant integration core
(`custom_components/destiny2/coordinator.py` and
`custom_components/destiny2/manifest.py`) against its specification.

The Python code is shallowly embedded: each coroutine becomes a pure
function over an explicit state, with every HTTP interaction represented
by an `HttpOutcome` value (either a transport-level failure, mirroring
`aiohttp.ClientError`, or a response with an integer status code and a
typed body).  Timestamps are seconds since an epoch that falls on a
Monday 00:00:00 UTC, so that Python's `datetime.weekday()` (Monday = 0)
is `(t / 86400) % 7`; `datetime.replace(hour=17, minute=0, second=0,
microsecond=0)` keeps the day and sets the time of day, which at second
granularity is `(t / 86400) * 86400 + 61200`.
-/

/-- Outcome of one HTTP call: `transportError` models a network failure of
the call itself (`aiohttp.ClientError`); `response` carries the status code
and a decoded body of the endpoint's shape. -/
inductive HttpOutcome (β : Type) where
  | transportError : HttpOutcome β
  | response (status : Nat) (body : β) : HttpOutcome β
deriving DecidableEq

/-! ### String helpers

Python string operations used by the source, embedded over `List Char` so
that every definition is kernel-executable. -/

/-- Python `needle == hay[:len(needle)]`: the first list starts the second. -/
def leadsWith : List Char → List Char → Bool
  | [], _ => true
  | _ :: _, [] => false
  | n :: ns, h :: hs => (n == h) && leadsWith ns hs

/-- Contiguous-substring test on character lists. -/
def containsChars (needle : List Char) : List Char → Bool
  | [] => leadsWith needle []
  | h :: hs => leadsWith needle (h :: hs) || containsChars needle hs

/-- Python's `needle in hay` for strings: contiguous substring containment. -/
def strContainsSub (hay needle : String) : Bool :=
  containsChars needle.data hay.data

/-- Python's `str.lower()` (the identifiers lowered by the source are ASCII). -/
def strLower (s : String) : String :=
  ⟨s.data.map Char.toLower⟩

/-- Python truthiness of an optional string: `None` and `""` are falsy. -/
def optStrTruthy : Option String → Bool
  | none => false
  | some s => !s.isEmpty

/-! ### Reset-time computations (`coordinator.py` lines 142-167)

Both functions are pure functions of "now" (`datetime.now(timezone.utc)`),
embedded as seconds since a Monday-00:00 UTC epoch. -/

def secondsPerDay : Nat := 86400

def secondsPerWeek : Nat := 604800

/-- 17:00 UTC expressed as seconds into the day. -/
def resetTimeOfDay : Nat := 61200

/-- `datetime.weekday()`: Monday is 0, Tuesday is 1, ..., Sunday is 6. -/
def weekdayOf (t : Nat) : Nat := (t / secondsPerDay) % 7

/-- `_calculate_next_weekly_reset` (coordinator.py lines 142-156):
`days_ahead = 1 - now.weekday()`; if `days_ahead <= 0` add 7; add that many
days to `now`; `replace` the time of day with 17:00:00; finally, if the
result is `<= now`, add 7 days. -/
def calculateNextWeeklyReset (now : Nat) : Nat :=
  let daysAhead : Int := 1 - (weekdayOf now : Int)
  let daysAhead : Int := if daysAhead ≤ 0 then daysAhead + 7 else daysAhead
  let nextReset : Nat := now + daysAhead.toNat * secondsPerDay
  let nextReset : Nat := (nextReset / secondsPerDay) * secondsPerDay + resetTimeOfDay
  if nextReset ≤ now then nextReset + 7 * secondsPerDay else nextReset

/-- `_calculate_next_daily_reset` (coordinator.py lines 158-167): `replace`
the time of day of "now" with 17:00:00; if already past, add one day. -/
def calculateNextDailyReset (now : Nat) : Nat :=
  let nextReset : Nat := (now / secondsPerDay) * secondsPerDay + resetTimeOfDay
  if nextReset ≤ now then nextReset + secondsPerDay else nextReset

/-- The Tuesday 17:00 UTC occurrence of the (Monday-started) week containing
`now`: the week's Monday 00:00 plus one day plus 17 hours. -/
def currentWeekBoundary (now : Nat) : Nat :=
  (now / secondsPerWeek) * secondsPerWeek + secondsPerDay + resetTimeOfDay

/-! ### Token lifecycle (`coordinator.py` lines 34-106)

The stored config entry (`entry.data`) and the coordinator's token
attributes.  Fields that only feed HTTP headers or the refresh request body
(`api_key`, `client_id`, `client_secret`) carry no control flow and are not
modelled. -/

/-- The host-persisted config entry data the coordinator reads and writes. -/
structure EntryData where
  access_token : Option String
  refresh_token : Option String
  expires_in : Option Nat
  bungie_name : Option String
  display_name : Option String
  membership_id : Option String
  membership_type : Option Int
  membership_type_name : Option String
  first_access : Option String
deriving DecidableEq

/-- The coordinator's mutable token state: `_access_token`,
`_refresh_token`, `_token_expires_at`, plus the config entry it writes
through to on a successful refresh. -/
structure TokenState where
  accessToken : Option String
  refreshToken : Option String
  tokenExpiresAt : Option Nat
  entryData : EntryData
deriving DecidableEq

/-- `Destiny2Coordinator.__init__` (lines 34-55): tokens are copied from the
entry; `_token_expires_at` is set to `now + expires_in` only when the entry
has an `expires_in` field, and stays `None` otherwise. -/
def coordinatorInit (entry : EntryData) (now : Nat) : TokenState :=
  { accessToken := entry.access_token
    refreshToken := entry.refresh_token
    tokenExpiresAt := entry.expires_in.map (fun s => now + s)
    entryData := entry }

/-- Decoded body of the OAuth token endpoint: `access_token`,
`refresh_token` and `expires_in` keys, each possibly absent. -/
structure TokenResponseBody where
  access_token : Option String
  refresh_token : Option String
  expires_in : Option Nat
deriving DecidableEq

/-- The `UpdateFailed` exception raised to abort a cycle. -/
structure UpdateFailed where
  msg : String
deriving DecidableEq

/-- `async_refresh_token_if_needed` (lines 57-106).  Returns the resulting
state (or the raised `UpdateFailed`) together with the number of refresh
HTTP requests performed (0 or 1).  Mirrors the source: return immediately
when `_token_expires_at` is `None`; return when `now + 5 minutes <
expiresAt`; otherwise POST once; on a non-200 status or a transport error
raise `UpdateFailed` without touching any stored field; on 200 replace the
tokens (`refresh_token` falls back to the stored one when absent), set the
expiry to `now + expires_in` (default 3600) and write the new token fields
through to the config entry. -/
def asyncRefreshTokenIfNeeded (st : TokenState) (now : Nat)
    (resp : HttpOutcome TokenResponseBody) :
    Except UpdateFailed TokenState × Nat :=
  match st.tokenExpiresAt with
  | none => (.ok st, 0)
  | some expiresAt =>
    if now + 5 * 60 < expiresAt then (.ok st, 0)
    else
      match resp with
      | .transportError => (.error ⟨"Token refresh error"⟩, 1)
      | .response status body =>
        if status ≠ 200 then (.error ⟨"Failed to refresh access token"⟩, 1)
        else
          let newAccess := body.access_token
          let newRefresh := match body.refresh_token with
            | some r => some r
            | none => st.refreshToken
          let newExpiresIn := body.expires_in.getD 3600
          (.ok { accessToken := newAccess
                 refreshToken := newRefresh
                 tokenExpiresAt := some (now + newExpiresIn)
                 entryData := { st.entryData with
                                access_token := newAccess
                                refresh_token := newRefresh
                                expires_in := some newExpiresIn } }, 1)

/-! ### Manifest definition cache (`manifest.py` lines 17-108)

A cached definition is the `data["Response"]` dict; only the
`displayProperties.name` field is read by the name wrappers. -/

/-- A manifest definition as returned under the `Response` key. -/
structure DisplayProperties where
  name : Option String
deriving DecidableEq

structure Defn where
  displayProperties : Option DisplayProperties
deriving DecidableEq

/-- Decoded body of a manifest lookup: the `Response` key, possibly absent. -/
structure ManifestBody where
  response : Option Defn
deriving DecidableEq

/-- The two-level dict `self._cache[definition_type][hash_str]`, flattened
to an association list keyed by `(definition_type, hash_str)`; lookups and
insertions behave identically (the source pre-seeds six categories with
empty inner dicts and creates missing ones on demand, which never changes
any lookup result). -/
def ManifestCacheMap : Type := List ((String × String) × Defn)

def cacheFind : ManifestCacheMap → String × String → Option Defn
  | [], _ => none
  | (k, v) :: rest, key => if k = key then some v else cacheFind rest key

/-- `ManifestCache.get_definition` (manifest.py lines 33-83), with the hash
already stringified (`hash_str = str(hash_id)`).  Returns the definition
found (or `None`), the cache after the call, and the number of manifest
HTTP requests performed.  Mirrors the source: a cache hit returns at once
with no I/O; on a miss one lookup is issued; a 200 response whose body has
a `Response` key stores and returns it; a non-200 status, a missing
`Response` key, or a transport error returns `None` and caches nothing. -/
def getDefinition (cache : ManifestCacheMap) (resp : HttpOutcome ManifestBody)
    (definition_type : String) (hash_str : String) :
    Option Defn × ManifestCacheMap × Nat :=
  match cacheFind cache (definition_type, hash_str) with
  | some d => (some d, cache, 0)
  | none =>
    match resp with
    | .transportError => (none, cache, 1)
    | .response status body =>
      if status ≠ 200 then (none, cache, 1)
      else
        match body.response with
        | some d => (some d, ((definition_type, hash_str), d) :: cache, 1)
        | none => (none, cache, 1)

/-! ### Milestones fetch and rotator classification (`coordinator.py` lines 169-288)

Name resolution inside the loop goes through `ManifestCache`; for this
cycle it is abstracted as resolution oracles `milestoneName : String →
String` and `activityName : Nat → String` (every `get_*_name` wrapper
always returns a string, falling back to `Unknown (<id>)`). -/

/-- One element of a milestone's `activities` list; the `activityHash` key
may be absent. -/
structure RawActivity where
  activityHash : Option Nat
deriving DecidableEq

/-- One milestone value from the `Response` dict: the `activities` and
`endDate` keys may be absent. -/
structure RawMilestone where
  activities : Option (List RawActivity)
  endDate : Option String
deriving DecidableEq

/-- Decoded body of the milestones endpoint: the `Response` key, possibly
absent, holds the milestone dict in iteration order. -/
structure MilestonesBody where
  response : Option (List (String × RawMilestone))
deriving DecidableEq

/-- One decoded rotator entry as built at coordinator.py lines 251-256. -/
structure MilestoneEntry where
  name : String
  activity : Option String
  has_master : Bool
  end_date : Option String
deriving DecidableEq

/-- The three rotator buckets. -/
structure Rotators where
  raids : List MilestoneEntry
  dungeons : List MilestoneEntry
  other : List MilestoneEntry
deriving DecidableEq

def emptyRotators : Rotators := ⟨[], [], []⟩

/-- Result of `_fetch_milestones`: `season_end` (a parsed timestamp) and
the rotator buckets.  Initialised to `{"season_end": None, "rotators":
{"raids": [], "dungeons": [], "other": []}}`. -/
structure MilestonesResult where
  season_end : Option Int
  rotators : Rotators
deriving DecidableEq

def milestonesDefault : MilestonesResult := ⟨none, emptyRotators⟩

/-- The raid keyword list of coordinator.py lines 225-235. -/
def raid_keywords : List String :=
  ["last wish", "garden of salvation", "deep stone crypt", "vault of glass",
   "vow of the disciple", "king\x27s fall", "root of nightmares",
   "crota\x27s end", "salvation\x27s edge"]

/-- The dungeon keyword list of coordinator.py lines 238-249. -/
def dungeon_keywords : List String :=
  ["shattered throne", "pit of heresy", "prophecy", "grasp of avarice",
   "duality", "spire of the watcher", "ghosts of the deep",
   "warlord\x27s ruin", "vesper\x27s host", "desert perpetual"]

/-- `name_lower = milestone_name.lower() if milestone_name else ""`. -/
def nameLowerOf (milestone_name : String) : String :=
  if milestone_name.isEmpty then "" else strLower milestone_name

/-- The activity loop of coordinator.py lines 200-209: walk the
`activities` list; for each element carrying an `activityHash`, resolve its
name; remember the first resolved name; set `has_master` once any resolved
name contains `"Master"`. -/
def decodeActivities (activityName : Nat → String) (acts : List RawActivity) :
    Option String × Bool :=
  acts.foldl
    (fun st a =>
      match a.activityHash with
      | none => st
      | some hashId =>
        let act_name := activityName hashId
        (match st.1 with
         | none => some act_name
         | some n => some n,
         st.2 || strContainsSub act_name "Master"))
    (none, false)

inductive Bucket where
  | raids
  | dungeons
  | other
deriving DecidableEq

/-- The classification of coordinator.py lines 258-263: raid keywords
first, then dungeon keywords, both matched as substrings of the lowered
milestone name; otherwise bucket `other` exactly when both `activity_name`
and `end_date_str` are truthy; otherwise no bucket. -/
def classifyMilestone (milestone_name : String) (activity_name : Option String)
    (end_date_str : Option String) : Option Bucket :=
  let name_lower := nameLowerOf milestone_name
  if raid_keywords.any (fun kw => strContainsSub name_lower kw) then some .raids
  else if dungeon_keywords.any (fun kw => strContainsSub name_lower kw) then some .dungeons
  else if optStrTruthy activity_name && optStrTruthy end_date_str then some .other
  else none

/-- One iteration of the milestone loop (coordinator.py lines 196-263):
resolve the milestone name, decode the activities, build the entry dict and
decide its bucket. -/
def processMilestone (milestoneName : String → String) (activityName : Nat → String)
    (milestone_hash : String) (m : RawMilestone) : MilestoneEntry × Option Bucket :=
  let milestone_name := milestoneName milestone_hash
  let decoded :=
    match m.activities with
    | none => (none, false)
    | some acts => decodeActivities activityName acts
  let entry : MilestoneEntry :=
    { name := milestone_name
      activity := decoded.1
      has_master := decoded.2
      end_date := m.endDate }
  (entry, classifyMilestone milestone_name decoded.1 m.endDate)

/-- The season-end tracking of coordinator.py lines 266-272: when
`end_date_str` is truthy and parses (`parseIso` stands for
`datetime.fromisoformat` after the `Z` replacement, `None` on
`ValueError`), keep the later of it and the running latest. -/
def trackSeasonEnd (parseIso : String → Option Int) (latest : Option Int)
    (end_date_str : Option String) : Option Int :=
  match end_date_str with
  | none => latest
  | some s =>
    if s.isEmpty then latest
    else
      match parseIso s with
      | none => latest
      | some d =>
        match latest with
        | none => some d
        | some cur => if cur < d then some d else some cur

/-- `_fetch_milestones` (coordinator.py lines 169-288).  A transport error,
a non-200 status, or a body without a `Response` key all return the default
result (empty buckets, null season end); on 200 the milestone dict is
folded in order, appending each classified entry to its bucket and tracking
the latest end date. -/
def fetchMilestones (milestoneName : String → String) (activityName : Nat → String)
    (parseIso : String → Option Int) (resp : HttpOutcome MilestonesBody) :
    MilestonesResult :=
  match resp with
  | .transportError => milestonesDefault
  | .response status body =>
    if status ≠ 200 then milestonesDefault
    else
      match body.response with
      | none => milestonesDefault
      | some milestones =>
        let folded := milestones.foldl
          (fun (acc : Rotators × Option Int) p =>
            let processed := processMilestone milestoneName activityName p.1 p.2
            let rot :=
              match processed.2 with
              | some .raids => { acc.1 with raids := acc.1.raids ++ [processed.1] }
              | some .dungeons => { acc.1 with dungeons := acc.1.dungeons ++ [processed.1] }
              | some .other => { acc.1 with other := acc.1.other ++ [processed.1] }
              | none => acc.1
            (rot, trackSeasonEnd parseIso acc.2 p.2.endDate))
          (emptyRotators, none)
        { season_end := folded.2, rotators := folded.1 }

/-! ### Vault count fetch (`coordinator.py` lines 290-336) -/

/-- One inventory item; only its `bucketHash` key is ever read. -/
structure RawItem where
  bucketHash : Option Nat
deriving DecidableEq

/-- The nested vault payload
`data["Response"]["profileInventory"]["data"]["items"]`, every level
possibly absent. -/
structure InventoryData where
  items : Option (List RawItem)
deriving DecidableEq

structure ProfileInventory where
  data : Option InventoryData
deriving DecidableEq

structure VaultResponse where
  profileInventory : Option ProfileInventory
deriving DecidableEq

structure VaultBody where
  response : Option VaultResponse
deriving DecidableEq

/-! ### Characters fetch (`coordinator.py` lines 338-449) and the cycle
snapshot -/

/-- One character value from `characters.data`; every key may be absent. -/
structure RawCharacter where
  classHash : Option Nat
  raceHash : Option Nat
  genderHash : Option Nat
  light : Option Nat
  emblemHash : Option Nat
  dateLastPlayed : Option String
deriving DecidableEq

/-- `characterInventories.data[char_id]`: the `items` key may be absent. -/
structure CharInventory where
  items : Option (List RawItem)
deriving DecidableEq

/-- The `characters` / `characterInventories` components of the profile
response, each wrapped in a possibly-absent `data` dict keyed by character
id (modelled in iteration order). -/
structure CharDataWrap where
  data : Option (List (String × RawCharacter))
deriving DecidableEq

structure InvDataWrap where
  data : Option (List (String × CharInventory))
deriving DecidableEq

structure CharsResponse where
  characters : Option CharDataWrap
  characterInventories : Option InvDataWrap
deriving DecidableEq

structure CharactersBody where
  response : Option CharsResponse
deriving DecidableEq

/-- One decoded character dict as built at coordinator.py lines 419-430
(`class` is spelled `className` here; Lean reserves the word). -/
structure CharacterInfo where
  character_id : String
  className : String
  race : String
  gender : String
  light : Nat
  emblem_hash : Option Nat
  last_played : Option String
  postmaster_count : Nat
deriving DecidableEq

/-- Result of `_fetch_characters` on success (lines 441-445). -/
structure CharactersResult where
  count : Nat
  characters : List CharacterInfo
  postmaster_critical : Bool
deriving DecidableEq

/-- The guardian info block assembled from stored config (lines 119-126). -/
structure Guardian where
  bungie_name : String
  display_name : String
  membership_id : Option String
  membership_type : Option Int
  membership_type_name : String
  first_access : Option String
deriving DecidableEq

/-- The aggregate data dict returned by `_async_update_data` — the
`CycleSnapshot` of the spec. -/
structure Snapshot where
  weekly_reset : Nat
  daily_reset : Nat
  guardian : Guardian
  season_end : Option Int
  rotators : Rotators
  vault_count : Option Nat
  characters : Option CharactersResult
deriving DecidableEq

def guardianOf (e : EntryData) : Guardian :=
  { bungie_name := e.bungie_name.getD "Unknown"
    display_name := e.display_name.getD "Unknown"
    membership_id := e.membership_id
    membership_type := e.membership_type
    membership_type_name := e.membership_type_name.getD "Unknown"
    first_access := e.first_access }

/-- `_fetch_vault_count` (coordinator.py lines 290-336).  `prevData` is the
coordinator's previous data (`self.data`), `None` before the first
successful cycle.  Mirrors the source: missing (falsy) membership id →
`None`; HTTP 500 → the previous snapshot's `vault_count` (or `None` with no
previous data); any other non-200 → `None`; 200 → `len(items) if items else
0` when the nested `items` list is present, `None` (``unexpected vault
response structure``) when any nesting level is absent; transport error →
`None`. -/
def fetchVaultCount (prevData : Option Snapshot) (entry : EntryData)
    (resp : HttpOutcome VaultBody) : Option Nat :=
  if !optStrTruthy entry.membership_id then none
  else
    match resp with
    | .transportError => none
    | .response status body =>
      if status = 500 then
        match prevData with
        | some d => d.vault_count
        | none => none
      else if status ≠ 200 then none
      else
        match body.response with
        | none => none
        | some r =>
          match r.profileInventory with
          | none => none
          | some pinv =>
            match pinv.data with
            | none => none
            | some d =>
              match d.items with
              | none => none
              | some items => some (if items.isEmpty then 0 else items.length)

/-- `BUCKET_POSTMASTER` (const.py line 33). -/
def BUCKET_POSTMASTER : Nat := 215593132

/-- Python dict lookup `inventories_data[char_id]` guarded by
`char_id in inventories_data`. -/
def lookupById : List (String × CharInventory) → String → Option CharInventory
  | [], _ => none
  | (k, v) :: rest, key => if k = key then some v else lookupById rest key

/-- The per-character decode of coordinator.py lines 387-430: resolve
class/race/gender names through the oracles, count items whose
`bucketHash` equals the postmaster bucket, flag critical at 18 or more,
and append the character dict in roster order.  The accumulator carries
(`characters`, `postmaster_critical`). -/
def assembleCharacters (classNameOf raceNameOf genderNameOf : Option Nat → String)
    (characters_data : List (String × RawCharacter))
    (inventories_data : List (String × CharInventory)) :
    List CharacterInfo × Bool :=
  characters_data.foldl
    (fun (acc : List CharacterInfo × Bool) (p : String × RawCharacter) =>
      let postmaster_count : Nat :=
        match lookupById inventories_data p.1 with
        | none => 0
        | some inv =>
          ((inv.items.getD []).filter
            (fun it => it.bucketHash == some BUCKET_POSTMASTER)).length
      let info : CharacterInfo :=
        { character_id := p.1
          className := classNameOf p.2.classHash
          race := raceNameOf p.2.raceHash
          gender := genderNameOf p.2.genderHash
          light := p.2.light.getD 0
          emblem_hash := p.2.emblemHash
          last_played := p.2.dateLastPlayed
          postmaster_count := postmaster_count }
      (acc.1 ++ [info], acc.2 || decide (postmaster_count ≥ 18)))
    ([], false)

/-- The sort key of coordinator.py line 434: `c.get("last_played") or ""`
(both a missing and an empty timestamp yield `""`). -/
def sortKey (c : CharacterInfo) : String := c.last_played.getD ""

/-- Lexicographic `≤` on character lists by code point — Python's string
comparison, written structurally so the kernel can evaluate it. -/
def charListLe : List Char → List Char → Bool
  | [], _ => true
  | _ :: _, [] => false
  | a :: as, b :: bs =>
    if a.toNat < b.toNat then true
    else if b.toNat < a.toNat then false
    else charListLe as bs

/-- The comparison realised by `characters.sort(key=..., reverse=True)`:
`a` may precede `b` exactly when `key(b) <= key(a)` (descending). -/
def rosterGE (a b : CharacterInfo) : Prop :=
  charListLe (sortKey b).data (sortKey a).data = true

instance : DecidableRel rosterGE :=
  fun a b => inferInstanceAs (Decidable (charListLe (sortKey b).data (sortKey a).data = true))

/-- `characters.sort(key=lambda c: c.get("last_played") or "",
reverse=True)` (coordinator.py lines 432-435): Python's `list.sort` is a
stable sort, embedded as a stable insertion sort under the descending
comparison. -/
def sortCharacters (l : List CharacterInfo) : List CharacterInfo :=
  List.insertionSort rosterGE l

/-- `_fetch_characters` (coordinator.py lines 338-449).  Same degrade
policy as the vault fetch; on 200 the characters are decoded in roster
order, sorted by last-played descending, and wrapped with their count and
the critical-postmaster flag. -/
def fetchCharacters (classNameOf raceNameOf genderNameOf : Option Nat → String)
    (prevData : Option Snapshot) (entry : EntryData)
    (resp : HttpOutcome CharactersBody) : Option CharactersResult :=
  if !optStrTruthy entry.membership_id then none
  else
    match resp with
    | .transportError => none
    | .response status body =>
      if status = 500 then
        match prevData with
        | some d => d.characters
        | none => none
      else if status ≠ 200 then none
      else
        match body.response with
        | none => none
        | some rd =>
          let characters_data := (rd.characters.bind CharDataWrap.data).getD []
          let inventories_data := (rd.characterInventories.bind InvDataWrap.data).getD []
          let assembled := assembleCharacters classNameOf raceNameOf genderNameOf
            characters_data inventories_data
          let sortedChars := sortCharacters assembled.1
          some { count := sortedChars.length
                 characters := sortedChars
                 postmaster_critical := assembled.2 }

/-! ### One update cycle (`coordinator.py` lines 108-140) -/

/-- The name-resolution and date-parsing oracles one cycle runs against:
what `ManifestCache` and `datetime.fromisoformat` return during the cycle. -/
structure ResolveEnv where
  milestoneName : String → String
  activityName : Nat → String
  parseIso : String → Option Int
  classNameOf : Option Nat → String
  raceNameOf : Option Nat → String
  genderNameOf : Option Nat → String

/-- The HTTP outcomes of the (up to) four network calls of one cycle. -/
structure CycleInputs where
  tokenResp : HttpOutcome TokenResponseBody
  milestonesResp : HttpOutcome MilestonesBody
  vaultResp : HttpOutcome VaultBody
  charsResp : HttpOutcome CharactersBody

/-- `_async_update_data` (coordinator.py lines 108-140): refresh the token
if needed (a raised `UpdateFailed` propagates — the call sits outside the
`try`); compute both resets; assemble guardian info from stored config; run
the three fetches and assemble the data dict.  The three fetch coroutines
swallow their own transport errors internally (each has its own
`except aiohttp.ClientError` returning a degraded value), so with typed
bodies no exception can reach the surrounding `try` and the fetch results
are total. -/
def asyncUpdateData (env : ResolveEnv) (st : TokenState) (prevData : Option Snapshot)
    (now : Nat) (inp : CycleInputs) : Except UpdateFailed (Snapshot × TokenState) :=
  match (asyncRefreshTokenIfNeeded st now inp.tokenResp).1 with
  | .error e => .error e
  | .ok st' =>
    let milestones := fetchMilestones env.milestoneName env.activityName
      env.parseIso inp.milestonesResp
    .ok ({ weekly_reset := calculateNextWeeklyReset now
           daily_reset := calculateNextDailyReset now
           guardian := guardianOf st'.entryData
           season_end := milestones.season_end
           rotators := milestones.rotators
           vault_count := fetchVaultCount prevData st'.entryData inp.vaultResp
           characters := fetchCharacters env.classNameOf env.raceNameOf
             env.genderNameOf prevData st'.entryData inp.charsResp },
         st')

/-- Modelled from the spec: the host scheduler / `DataUpdateCoordinator`
framework (outside this repository) keeps the previous snapshot and state
when `_async_update_data` raises, and installs the new snapshot when it
returns (spec §4.4 step 6, §6 inbound scheduler dependency). -/
def runCycle (env : ResolveEnv) (st : TokenState) (prevData : Option Snapshot)
    (now : Nat) (inp : CycleInputs) : Option Snapshot × TokenState :=
  match asyncUpdateData env st prevData now inp with
  | .ok (snap, st') => (some snap, st')
  | .error _ => (prevData, st)

/-- Whether the cycle aborted (an `UpdateFailed` escaped). -/
def cycleAborted (r : Except UpdateFailed (Snapshot × TokenState)) : Bool :=
  match r with
  | .error _ => true
  | .ok _ => false

/-- The snapshot a non-aborted cycle produced. -/
def cycleResultSnapshot (r : Except UpdateFailed (Snapshot × TokenState)) :
    Option Snapshot :=
  match r with
  | .ok (snap, _) => some snap
  | .error _ => none

/-- Whether a token-endpoint outcome fails the refresh (non-200 status or
transport error). -/
def refreshFails : HttpOutcome TokenResponseBody → Bool
  | .transportError => true
  | .response status _ => status != 200

/-- Whether one `activities` element contributes to `has_master`: it
carries an `activityHash` whose resolved name contains `"Master"`. -/
def activityMaster (activityName : Nat → String) (a : RawActivity) : Bool :=
  match a.activityHash with
  | none => false
  | some hashId => strContainsSub (activityName hashId) "Master"

/-! ### Concrete fixtures used by counterexamples and witnesses -/

/-- A previous cycle's snapshot holding `vault_count = 42`. -/
def prevSnapshot42 : Snapshot :=
  { weekly_reset := 147600
    daily_reset := 61200
    guardian := ⟨"Guardian#1234", "Guardian", some "m1", some 3, "Steam", none⟩
    season_end := none
    rotators := emptyRotators
    vault_count := some 42
    characters := none }

/-- A config entry with a (truthy) membership id, as any linked account has. -/
def entryWithMember : EntryData :=
  ⟨some "at", some "rt", some 3600, some "Guardian#1234", some "Guardian",
   some "m1", some 3, some "Steam", none⟩

/-- Resolution oracles that answer every lookup with `"Unknown"` and parse
no dates: the degenerate environment. -/
def envTrivial : ResolveEnv :=
  ⟨fun _ => "Unknown", fun _ => "Unknown", fun _ => none,
   fun _ => "Unknown", fun _ => "Unknown", fun _ => "Unknown"⟩

/-- A config entry without an `expires_in` field. -/
def entryNoExpiry : EntryData :=
  ⟨some "at", some "rt", none, some "Guardian#1234", some "Guardian",
   some "m1", some 3, some "Steam", none⟩

/-- A config entry whose token is already expired (`expires_in = 0`). -/
def entryExpired : EntryData :=
  ⟨some "at", some "rt", some 0, some "Guardian#1234", some "Guardian",
   some "m1", some 3, some "Steam", none⟩

/-- A cycle where only the milestones fetch dies on the wire (the token
endpoint answers 200; the vault and characters calls also fail in
transport, keeping the fixture minimal). -/
def cycleInputsMilestoneDown : CycleInputs :=
  ⟨.response 200 ⟨some "at2", some "rt2", some 3600⟩,
   .transportError, .transportError, .transportError⟩

/-- A cycle whose token refresh is rejected with HTTP 401. -/
def cycleInputsAuthDown : CycleInputs :=
  ⟨.response 401 ⟨none, none, none⟩, .transportError, .transportError, .transportError⟩

/-- Characters last played on 2024-01-02, on 2024-01-01, and never. -/
def charJan2 : CharacterInfo :=
  ⟨"2305843009301000001", "Warlock", "Human", "Female", 2010, some 100,
   some "2024-01-02T00:00:00Z", 3⟩

def charJan1 : CharacterInfo :=
  ⟨"2305843009301000002", "Hunter", "Awoken", "Male", 2005, some 101,
   some "2024-01-01T00:00:00Z", 0⟩

def charNever : CharacterInfo :=
  ⟨"2305843009301000003", "Titan", "Exo", "Male", 1800, none, none, 0⟩

/-! ## Theorems -/

/-- C1: evaluation of `_calculate_next_weekly_reset` at a Tuesday 10:00:00
UTC instant (second 122400 of a Monday-epoch week).  That instant is
strictly before the same week's Tuesday 17:00 UTC boundary (second 147600),
yet the code returns the boundary of the following week (second 752400),
7 days and 7 hours away — not the same-week boundary the claim (and the
function's own docstring, "Calculate the next weekly reset time") requires. -/
theorem weeklyReset_skips_tuesday_morning :
    122400 < currentWeekBoundary 122400 ∧
    calculateNextWeeklyReset 122400 = currentWeekBoundary 122400 + secondsPerWeek ∧
    calculateNextWeeklyReset 122400 ≠ currentWeekBoundary 122400 ∧
    currentWeekBoundary 122400 = 147600 := by
  refine ⟨by decide, by decide, by decide, by decide⟩

/-- C6: with a stored expiry, `async_refresh_token_if_needed` performs a
refresh HTTP request if and only if the expiry is within the 5-minute
lookahead window of "now" (`expiresAt ≤ now + 300`), and outside the window
it performs zero requests and changes no state. -/
theorem ensureValid_refresh_iff_within_window (st : TokenState) (now e : Nat)
    (resp : HttpOutcome TokenResponseBody) (hexp : st.tokenExpiresAt = some e) :
    ((asyncRefreshTokenIfNeeded st now resp).2 = if e ≤ now + 5 * 60 then 1 else 0) ∧
    (now + 5 * 60 < e → asyncRefreshTokenIfNeeded st now resp = (.ok st, 0)) := by
  constructor
  · unfold asyncRefreshTokenIfNeeded
    rw [hexp]
    by_cases hw : now + 5 * 60 < e
    · simp [hw, Nat.not_le.mpr hw]
    · have hle : e ≤ now + 5 * 60 := Nat.not_lt.mp hw
      cases resp with
      | transportError => simp [hw, hle]
      | response status body =>
        by_cases hs : status ≠ 200 <;> simp [hw, hle, hs]
  · intro hw
    unfold asyncRefreshTokenIfNeeded
    rw [hexp]
    simp [hw]

/-- C6 witness: a token expiring 3 minutes from "now" (expiry 180, now 0)
triggers exactly one refresh request; a token expiring 10 minutes out
(expiry 600) triggers zero requests and leaves the state unchanged. -/
theorem ensureValid_refresh_iff_within_window_witness :
    (asyncRefreshTokenIfNeeded
        { accessToken := some "at", refreshToken := some "rt",
          tokenExpiresAt := some 180,
          entryData := ⟨some "at", some "rt", some 180, none, none, none, none, none, none⟩ }
        0 (.response 200 ⟨some "at2", some "rt2", some 3600⟩)).2 = 1 ∧
    asyncRefreshTokenIfNeeded
        { accessToken := some "at", refreshToken := some "rt",
          tokenExpiresAt := some 600,
          entryData := ⟨some "at", some "rt", some 600, none, none, none, none, none, none⟩ }
        0 (.response 200 ⟨some "at2", some "rt2", some 3600⟩) =
      (.ok { accessToken := some "at", refreshToken := some "rt",
             tokenExpiresAt := some 600,
             entryData := ⟨some "at", some "rt", some 600, none, none, none, none, none, none⟩ }, 0) := by
  constructor
  · have h := (ensureValid_refresh_iff_within_window
      { accessToken := some "at", refreshToken := some "rt",
        tokenExpiresAt := some 180,
        entryData := ⟨some "at", some "rt", some 180, none, none, none, none, none, none⟩ }
      0 180 (.response 200 ⟨some "at2", some "rt2", some 3600⟩) rfl).1
    simpa using h
  · exact (ensureValid_refresh_iff_within_window
      { accessToken := some "at", refreshToken := some "rt",
        tokenExpiresAt := some 600,
        entryData := ⟨some "at", some "rt", some 600, none, none, none, none, none, none⟩ }
      0 600 (.response 200 ⟨some "at2", some "rt2", some 3600⟩) rfl).2 (by norm_num)

/-- C10: when the stored config lacks `expires_in`, construction leaves
`_token_expires_at` unset, and then every call to
`async_refresh_token_if_needed` — at any later time, with any response the
network could have given — returns at once with no refresh request and no
state change, no matter how stale the stored access token is. -/
theorem missing_expires_in_never_refreshes (entry : EntryData) (now later : Nat)
    (resp : HttpOutcome TokenResponseBody) (h : entry.expires_in = none) :
    (coordinatorInit entry now).tokenExpiresAt = none ∧
    asyncRefreshTokenIfNeeded (coordinatorInit entry now) later resp =
      (.ok (coordinatorInit entry now), 0) := by
  have hexp : (coordinatorInit entry now).tokenExpiresAt = none := by
    simp [coordinatorInit, h]
  refine ⟨hexp, ?_⟩
  unfold asyncRefreshTokenIfNeeded
  rw [hexp]

/-- C10 witness: a config entry with a stale access token and no
`expires_in` field never triggers a refresh, even long after construction
and with a server that would answer the refresh. -/
theorem missing_expires_in_never_refreshes_witness :
    (coordinatorInit ⟨some "stale", some "rt", none, none, none, none, none, none, none⟩ 0).tokenExpiresAt = none ∧
    asyncRefreshTokenIfNeeded
        (coordinatorInit ⟨some "stale", some "rt", none, none, none, none, none, none, none⟩ 0)
        999999 (.response 200 ⟨some "fresh", some "rt2", some 3600⟩) =
      (.ok (coordinatorInit ⟨some "stale", some "rt", none, none, none, none, none, none, none⟩ 0), 0) :=
  missing_expires_in_never_refreshes
    ⟨some "stale", some "rt", none, none, none, none, none, none, none⟩ 0 999999
    (.response 200 ⟨some "fresh", some "rt2", some 3600⟩) rfl


/-- A cache hit returns the cached definition with no request and no cache
change, whatever the network would have answered. -/
theorem getDefinition_hit (cache : ManifestCacheMap) (resp : HttpOutcome ManifestBody)
    (t h : String) (d : Defn) (hc : cacheFind cache (t, h) = some d) :
    getDefinition cache resp t h = (some d, cache, 0) := by
  unfold getDefinition
  rw [hc]

/-- A cache miss with the network down: one request, no result, no caching. -/
theorem getDefinition_miss_transport (cache : ManifestCacheMap) (t h : String)
    (hc : cacheFind cache (t, h) = none) :
    getDefinition cache .transportError t h = (none, cache, 1) := by
  unfold getDefinition
  rw [hc]

/-- A cache miss answered with a non-200 status: one request, no result, no
caching. -/
theorem getDefinition_miss_non200 (cache : ManifestCacheMap) (t h : String)
    (status : Nat) (body : ManifestBody) (hc : cacheFind cache (t, h) = none)
    (hs : status ≠ 200) :
    getDefinition cache (.response status body) t h = (none, cache, 1) := by
  unfold getDefinition
  rw [hc]
  simp [hs]

/-- A cache miss answered 200 with a `Response` key: one request, the
definition is returned and stored. -/
theorem getDefinition_miss_200_some (cache : ManifestCacheMap) (t h : String)
    (body : ManifestBody) (d : Defn) (hc : cacheFind cache (t, h) = none)
    (hb : body.response = some d) :
    getDefinition cache (.response 200 body) t h = (some d, ((t, h), d) :: cache, 1) := by
  unfold getDefinition
  rw [hc]
  simp [hb]

/-- A cache miss answered 200 without a `Response` key: one request, no
result, no caching. -/
theorem getDefinition_miss_200_none (cache : ManifestCacheMap) (t h : String)
    (body : ManifestBody) (hc : cacheFind cache (t, h) = none)
    (hb : body.response = none) :
    getDefinition cache (.response 200 body) t h = (none, cache, 1) := by
  unfold getDefinition
  rw [hc]
  simp [hb]

/-- C5: definition resolution is idempotent after success and never caches
failures.  If a `get_definition` call for a key returns a definition, any
later call for the same key — whatever the network would now answer —
returns that same definition from the cache, with zero HTTP requests and an
unchanged cache.  If a call returns `None`, the cache is left exactly as it
was, and a later call for the same key issues a fresh HTTP request, so it
may retry and succeed. -/
theorem getDefinition_idempotent_after_success (cache : ManifestCacheMap)
    (resp retry : HttpOutcome ManifestBody) (t h : String) :
    (∀ d, (getDefinition cache resp t h).1 = some d →
      getDefinition (getDefinition cache resp t h).2.1 retry t h =
        (some d, (getDefinition cache resp t h).2.1, 0)) ∧
    ((getDefinition cache resp t h).1 = none →
      (getDefinition cache resp t h).2.1 = cache ∧
      (getDefinition cache retry t h).2.2 = 1) := by
  have hretry : cacheFind cache (t, h) = none → (getDefinition cache retry t h).2.2 = 1 := by
    intro hc
    cases retry with
    | transportError => rw [getDefinition_miss_transport cache t h hc]
    | response status body =>
      by_cases hst : status = 200
      · subst hst
        cases hb : body.response with
        | none => rw [getDefinition_miss_200_none cache t h body hc hb]
        | some d1 => rw [getDefinition_miss_200_some cache t h body d1 hc hb]
      · rw [getDefinition_miss_non200 cache t h status body hc hst]
  cases hc : cacheFind cache (t, h) with
  | some d0 =>
    rw [getDefinition_hit cache resp t h d0 hc]
    constructor
    · intro d hd
      simp only at hd
      cases hd
      exact getDefinition_hit cache retry t h d0 hc
    · intro hd
      simp at hd
  | none =>
    cases resp with
    | transportError =>
      rw [getDefinition_miss_transport cache t h hc]
      exact ⟨fun d hd => by simp at hd, fun _ => ⟨rfl, hretry hc⟩⟩
    | response status body =>
      by_cases hst : status = 200
      · subst hst
        cases hb : body.response with
        | none =>
          rw [getDefinition_miss_200_none cache t h body hc hb]
          exact ⟨fun d hd => by simp at hd, fun _ => ⟨rfl, hretry hc⟩⟩
        | some d1 =>
          rw [getDefinition_miss_200_some cache t h body d1 hc hb]
          constructor
          · intro d hd
            simp only at hd
            cases hd
            exact getDefinition_hit _ retry t h d1 (by simp [cacheFind])
          · intro hd
            simp at hd
      · rw [getDefinition_miss_non200 cache t h status body hc hst]
        exact ⟨fun d hd => by simp at hd, fun _ => ⟨rfl, hretry hc⟩⟩

/-- C5 witness: resolving activity 42 once from a 200 response caches it;
a second call for the same key returns the cached definition with zero
requests even though the network is now down. -/
theorem getDefinition_idempotent_after_success_witness :
    getDefinition
        (getDefinition [] (.response 200 ⟨some ⟨some ⟨some "Vault of Glass"⟩⟩⟩)
          "DestinyActivityDefinition" "42").2.1
        .transportError "DestinyActivityDefinition" "42" =
      (some ⟨some ⟨some "Vault of Glass"⟩⟩,
       (getDefinition [] (.response 200 ⟨some ⟨some ⟨some "Vault of Glass"⟩⟩⟩)
          "DestinyActivityDefinition" "42").2.1, 0) :=
  (getDefinition_idempotent_after_success []
      (.response 200 ⟨some ⟨some ⟨some "Vault of Glass"⟩⟩⟩) .transportError
      "DestinyActivityDefinition" "42").1
    ⟨some ⟨some "Vault of Glass"⟩⟩ (by decide)

/-- The `has_master` accumulator of the activity loop is the disjunction of
`activityMaster` over the activities walked so far. -/
theorem foldl_decode_master (activityName : Nat → String) (acts : List RawActivity) :
    ∀ init : Option String × Bool,
      (acts.foldl
        (fun st a =>
          match a.activityHash with
          | none => st
          | some hashId =>
            let act_name := activityName hashId
            (match st.1 with
             | none => some act_name
             | some n => some n,
             st.2 || strContainsSub act_name "Master"))
        init).2 = (init.2 || acts.any (activityMaster activityName)) := by
  induction acts with
  | nil => intro init; simp
  | cons a as ih =>
    intro init
    rw [List.foldl_cons, List.any_cons, ih]
    cases ha : a.activityHash with
    | none => simp [activityMaster, ha]
    | some hashId => simp [activityMaster, ha, Bool.or_assoc]

/-- C8: a milestone's `has_master` flag is true exactly when some element
of its `activities` list carries an `activityHash` whose resolved activity
name contains the substring `"Master"` (case-sensitively — the embedded
containment test compares code points exactly).  The flag is computed over
all of the milestone's activities, before and independently of bucket
classification. -/
theorem has_master_iff_master_activity (milestoneName : String → String)
    (activityName : Nat → String) (milestone_hash : String) (m : RawMilestone) :
    (processMilestone milestoneName activityName milestone_hash m).1.has_master = true ↔
      ∃ a ∈ m.activities.getD [], ∃ hashId, a.activityHash = some hashId ∧
        strContainsSub (activityName hashId) "Master" = true := by
  have key : (processMilestone milestoneName activityName milestone_hash m).1.has_master
      = (m.activities.getD []).any (activityMaster activityName) := by
    unfold processMilestone decodeActivities
    cases m.activities with
    | none => simp
    | some acts => simp [foldl_decode_master]
  rw [key, List.any_eq_true]
  constructor
  · rintro ⟨a, ha, hm⟩
    refine ⟨a, ha, ?_⟩
    unfold activityMaster at hm
    cases hh : a.activityHash with
    | none => rw [hh] at hm; simp at hm
    | some hashId => rw [hh] at hm; exact ⟨hashId, rfl, hm⟩
  · rintro ⟨a, ha, hashId, hh, hm⟩
    exact ⟨a, ha, by unfold activityMaster; rw [hh]; exact hm⟩

/-- C8 witness: a milestone whose single activity resolves to
`"Vault of Glass: Master"` gets `has_master = true`. -/
theorem has_master_iff_master_activity_witness :
    (processMilestone (fun _ => "Vault of Glass") (fun _ => "Vault of Glass: Master")
        "1" ⟨some [⟨some 5⟩], some "2024-06-01T17:00:00Z"⟩).1.has_master = true :=
  (has_master_iff_master_activity (fun _ => "Vault of Glass")
      (fun _ => "Vault of Glass: Master") "1"
      ⟨some [⟨some 5⟩], some "2024-06-01T17:00:00Z"⟩).mpr
    ⟨⟨some 5⟩, by decide, 5, rfl, by decide⟩

/-- Case split of `classifyMilestone`: raid keywords win, then dungeon
keywords; otherwise bucket `other` exactly when both the first activity
name and the end date are truthy, and no bucket when not. -/
theorem classifyMilestone_cases (n : String) (an ed : Option String) :
    ((raid_keywords.any fun kw => strContainsSub (nameLowerOf n) kw) = true →
      classifyMilestone n an ed = some Bucket.raids) ∧
    ((raid_keywords.any fun kw => strContainsSub (nameLowerOf n) kw) = false →
     (dungeon_keywords.any fun kw => strContainsSub (nameLowerOf n) kw) = true →
      classifyMilestone n an ed = some Bucket.dungeons) ∧
    ((raid_keywords.any fun kw => strContainsSub (nameLowerOf n) kw) = false →
     (dungeon_keywords.any fun kw => strContainsSub (nameLowerOf n) kw) = false →
      (classifyMilestone n an ed = some Bucket.other ↔
        optStrTruthy an = true ∧ optStrTruthy ed = true) ∧
      ((optStrTruthy an && optStrTruthy ed) = false →
        classifyMilestone n an ed = none)) := by
  unfold classifyMilestone
  refine ⟨fun hr => by simp [hr], fun hr hd => by simp [hr, hd], fun hr hd => ?_⟩
  constructor
  · by_cases h1 : optStrTruthy an = true <;> by_cases h2 : optStrTruthy ed = true <;>
      simp [hr, hd, h1, h2]
  · intro hf
    simp [hr, hd, hf]

/-- C7 counterexample to the claim as stated: a milestone matching no
keyword, with a resolved first-activity name (`"Gambit"`) and a non-null
end date (the empty string `""`), is dropped from every bucket — the code
tests Python truthiness, not nullness, of the end date, so the claim's
"non-null end date ⇒ bucket other" fails here. -/
theorem milestone_bucket_counterexample :
    (processMilestone (fun _ => "Weekly Ritual") (fun _ => "Gambit") "9"
        ⟨some [⟨some 7⟩], some ""⟩).2 = none ∧
    (processMilestone (fun _ => "Weekly Ritual") (fun _ => "Gambit") "9"
        ⟨some [⟨some 7⟩], some ""⟩).1.activity = some "Gambit" ∧
    (processMilestone (fun _ => "Weekly Ritual") (fun _ => "Gambit") "9"
        ⟨some [⟨some 7⟩], some ""⟩).1.end_date = some "" ∧
    some "" ≠ (none : Option String) ∧
    (raid_keywords.any fun kw => strContainsSub (nameLowerOf "Weekly Ritual") kw) = false ∧
    (dungeon_keywords.any fun kw => strContainsSub (nameLowerOf "Weekly Ritual") kw) = false := by
  refine ⟨by decide, by decide, by decide, by decide, by decide, by decide⟩

/-- C7 (amended): bucket assignment follows the fixed priority order, with
the `other` bucket gated on Python truthiness: if the lowered resolved
milestone name contains a raid keyword the milestone goes to `raids`
(regardless of dungeon matches); else if it contains a dungeon keyword it
goes to `dungeons`; else it goes to `other` exactly when its first resolved
activity name is present and non-empty AND its end date is present and
non-empty, and to no bucket otherwise. -/
theorem milestone_bucket_priority (milestoneName : String → String)
    (activityName : Nat → String) (milestone_hash : String) (m : RawMilestone) :
    ((raid_keywords.any fun kw =>
        strContainsSub (nameLowerOf (milestoneName milestone_hash)) kw) = true →
      (processMilestone milestoneName activityName milestone_hash m).2 = some Bucket.raids) ∧
    ((raid_keywords.any fun kw =>
        strContainsSub (nameLowerOf (milestoneName milestone_hash)) kw) = false →
     (dungeon_keywords.any fun kw =>
        strContainsSub (nameLowerOf (milestoneName milestone_hash)) kw) = true →
      (processMilestone milestoneName activityName milestone_hash m).2 = some Bucket.dungeons) ∧
    ((raid_keywords.any fun kw =>
        strContainsSub (nameLowerOf (milestoneName milestone_hash)) kw) = false →
     (dungeon_keywords.any fun kw =>
        strContainsSub (nameLowerOf (milestoneName milestone_hash)) kw) = false →
      ((processMilestone milestoneName activityName milestone_hash m).2 = some Bucket.other ↔
        optStrTruthy (processMilestone milestoneName activityName milestone_hash m).1.activity
          = true ∧
        optStrTruthy m.endDate = true) ∧
      ((optStrTruthy (processMilestone milestoneName activityName milestone_hash m).1.activity
          && optStrTruthy m.endDate) = false →
        (processMilestone milestoneName activityName milestone_hash m).2 = none)) := by
  have hb : (processMilestone milestoneName activityName milestone_hash m).2
      = classifyMilestone (milestoneName milestone_hash)
          (processMilestone milestoneName activityName milestone_hash m).1.activity
          m.endDate := rfl
  rw [hb]
  exact classifyMilestone_cases (milestoneName milestone_hash)
    (processMilestone milestoneName activityName milestone_hash m).1.activity m.endDate

/-- C7 witness: the spec's example — a milestone resolving to
`"Vault of Glass"` lands in the raid bucket. -/
theorem milestone_bucket_priority_witness :
    (processMilestone (fun _ => "Vault of Glass") (fun _ => "Vault of Glass: Master") "1"
        ⟨some [⟨some 5⟩], some "2024-06-01T17:00:00Z"⟩).2 = some Bucket.raids :=
  (milestone_bucket_priority (fun _ => "Vault of Glass")
      (fun _ => "Vault of Glass: Master") "1"
      ⟨some [⟨some 5⟩], some "2024-06-01T17:00:00Z"⟩).1 (by decide)

/-- C3 counterexample to the claim as stated: a 200 vault response whose
nesting is intact down to `data` but whose `items` key is absent yields
`None` (the source logs "Unexpected vault response structure"), not the 0
the claim requires for an absent items list. -/
theorem vault_count_counterexample :
    fetchVaultCount (some prevSnapshot42) entryWithMember
        (.response 200 ⟨some ⟨some ⟨some ⟨none⟩⟩⟩⟩) = none ∧
    (none : Option Nat) ≠ some 0 := by
  refine ⟨by decide, by decide⟩

/-- C3 (amended): the vault-count policy, for any fetch with a (truthy)
membership id: HTTP 500 preserves the previous snapshot's `vault_count`
unchanged (and is `None` when no previous snapshot exists); any other
non-200 yields `None`; a 200 whose nested `items` list is present yields
the item count (0 for an empty list); a 200 whose `items` list is absent
yields `None`. -/
theorem vault_count_policy (prev : Snapshot) (prevOpt : Option Snapshot)
    (entry : EntryData) (status : Nat) (body : VaultBody)
    (hm : optStrTruthy entry.membership_id = true) :
    (fetchVaultCount (some prev) entry (.response 500 body) = prev.vault_count) ∧
    (fetchVaultCount none entry (.response 500 body) = none) ∧
    (status ≠ 500 → status ≠ 200 →
      fetchVaultCount prevOpt entry (.response status body) = none) ∧
    (∀ r pinv d items, body.response = some r → r.profileInventory = some pinv →
      pinv.data = some d → d.items = some items →
      fetchVaultCount prevOpt entry (.response 200 body) = some items.length) ∧
    (∀ r pinv d, body.response = some r → r.profileInventory = some pinv →
      pinv.data = some d → d.items = none →
      fetchVaultCount prevOpt entry (.response 200 body) = none) := by
  have hmb : (!optStrTruthy entry.membership_id) = false := by rw [hm]; rfl
  refine ⟨?_, ?_, ?_, ?_, ?_⟩
  · unfold fetchVaultCount
    rw [hmb]
    simp
  · unfold fetchVaultCount
    rw [hmb]
    simp
  · intro h5 h2
    unfold fetchVaultCount
    rw [hmb]
    simp [h5, h2]
  · intro r pinv d items hr hp hd hi
    unfold fetchVaultCount
    rw [hmb]
    simp only [Bool.false_eq_true, if_false, hr, hp, hd, hi]
    norm_num
    cases items <;> simp
  · intro r pinv d hr hp hd hi
    unfold fetchVaultCount
    rw [hmb]
    simp [hr, hp, hd, hi]

/-- C3 witness: with a previous snapshot holding 42 vault items, a 500
keeps 42, and a 403 nulls the field. -/
theorem vault_count_policy_witness :
    fetchVaultCount (some prevSnapshot42) entryWithMember (.response 500 ⟨none⟩) = some 42 ∧
    fetchVaultCount (some prevSnapshot42) entryWithMember (.response 403 ⟨none⟩) = none := by
  constructor
  · exact ((vault_count_policy prevSnapshot42 (some prevSnapshot42) entryWithMember 403 ⟨none⟩
      (by decide)).1).trans rfl
  · exact (vault_count_policy prevSnapshot42 (some prevSnapshot42) entryWithMember 403 ⟨none⟩
      (by decide)).2.2.1 (by decide) (by decide)

theorem charListLe_refl : ∀ x : List Char, charListLe x x = true
  | [] => rfl
  | a :: as => by
    unfold charListLe
    simp [Nat.lt_irrefl, charListLe_refl as]

theorem charListLe_total : ∀ x y : List Char,
    charListLe x y = true ∨ charListLe y x = true
  | [], _ => Or.inl rfl
  | _ :: _, [] => Or.inr rfl
  | a :: as, b :: bs => by
    unfold charListLe
    rcases Nat.lt_trichotomy a.toNat b.toNat with h | h | h
    · exact Or.inl (by simp [h])
    · have h2 : ¬ a.toNat < b.toNat := by omega
      have h3 : ¬ b.toNat < a.toNat := by omega
      simp only [if_neg h2, if_neg h3]
      exact charListLe_total as bs
    · exact Or.inr (by simp [h])

theorem charListLe_trans : ∀ x y z : List Char,
    charListLe x y = true → charListLe y z = true → charListLe x z = true
  | [], _, _ => fun _ _ => rfl
  | _ :: _, [], _ => fun h1 _ => by simp [charListLe] at h1
  | _ :: _, _ :: _, [] => fun _ h2 => by simp [charListLe] at h2
  | a :: as, b :: bs, c :: cs => fun h1 h2 => by
    unfold charListLe at h1 h2 ⊢
    by_cases hab : a.toNat < b.toNat
    · by_cases hbc : b.toNat < c.toNat
      · simp [show a.toNat < c.toNat by omega]
      · by_cases hcb : c.toNat < b.toNat
        · rw [if_neg hbc, if_pos hcb] at h2
          exact absurd h2 (by simp)
        · simp [show a.toNat < c.toNat by omega]
    · by_cases hba : b.toNat < a.toNat
      · rw [if_neg hab, if_pos hba] at h1
        exact absurd h1 (by simp)
      · rw [if_neg hab, if_neg hba] at h1
        by_cases hbc : b.toNat < c.toNat
        · simp [show a.toNat < c.toNat by omega]
        · by_cases hcb : c.toNat < b.toNat
          · rw [if_neg hbc, if_pos hcb] at h2
            exact absurd h2 (by simp)
          · rw [if_neg hbc, if_neg hcb] at h2
            have hac : ¬ a.toNat < c.toNat := by omega
            have hca : ¬ c.toNat < a.toNat := by omega
            rw [if_neg hac, if_neg hca]
            exact charListLe_trans as bs cs h1 h2

theorem charListLe_nil_right : ∀ x : List Char, charListLe x [] = true → x = []
  | [], _ => rfl
  | _ :: _, h => by simp [charListLe] at h

theorem string_eq_empty_of_data_nil (s : String) (h : s.data = []) : s = "" := by
  cases s with
  | mk data =>
    simp only at h
    subst h
    rfl

/-- C9: the roster sort of `_fetch_characters`.  For every assembled
character list, the sorted list is a permutation of it, is ordered by
last-played key descending (`rosterGE`, where a missing or empty timestamp
keys as `""`), keeps the input order of any two characters with equal keys
(stability), and once a character with a missing timestamp appears, every
later character's key is `""` — so a missing timestamp sorts after every
present, non-empty one. -/
theorem characters_sorted_desc_stable (l : List CharacterInfo) :
    (sortCharacters l).Perm l ∧
    List.Pairwise rosterGE (sortCharacters l) ∧
    (∀ a b : CharacterInfo, sortKey a = sortKey b →
      List.Sublist [a, b] l → List.Sublist [a, b] (sortCharacters l)) ∧
    List.Pairwise (fun a b => a.last_played = none → sortKey b = "") (sortCharacters l) := by
  haveI htot : IsTotal CharacterInfo rosterGE :=
    ⟨fun a b => charListLe_total (sortKey b).data (sortKey a).data⟩
  haveI htrans : IsTrans CharacterInfo rosterGE :=
    ⟨fun a b c h1 h2 =>
      charListLe_trans (sortKey c).data (sortKey b).data (sortKey a).data h2 h1⟩
  have hsorted : List.Pairwise rosterGE (sortCharacters l) :=
    List.sorted_insertionSort rosterGE l
  refine ⟨List.perm_insertionSort rosterGE l, hsorted, ?_, ?_⟩
  · intro a b hk hsub
    have hab : rosterGE a b := by
      show charListLe (sortKey b).data (sortKey a).data = true
      rw [hk]
      exact charListLe_refl _
    exact List.pair_sublist_insertionSort hab hsub
  · refine hsorted.imp ?_
    intro a b hge hnone
    have hka : sortKey a = "" := by simp [sortKey, hnone]
    have hnil : charListLe (sortKey b).data [] = true := by
      have h : charListLe (sortKey b).data (sortKey a).data = true := hge
      rw [hka] at h
      exact h
    exact string_eq_empty_of_data_nil _ (charListLe_nil_right _ hnil)

/-- C9 witness: the spec's example roster — last played 2024-01-01,
2024-01-02, never — sorts to 2024-01-02, 2024-01-01, never, and is ordered
under the descending key comparison. -/
theorem characters_sorted_desc_stable_witness :
    sortCharacters [charJan1, charJan2, charNever] = [charJan2, charJan1, charNever] ∧
    List.Pairwise rosterGE (sortCharacters [charJan1, charJan2, charNever]) :=
  ⟨by decide, (characters_sorted_desc_stable [charJan1, charJan2, charNever]).2.1⟩

/-- C2 counterexample to the claim as stated: a concrete cycle whose
milestones fetch dies on the wire (transport error) does NOT abort —
`_async_update_data` returns a new snapshot, with empty rotator buckets and
a null season end, because `_fetch_milestones` catches
`aiohttp.ClientError` itself and returns its degraded default. -/
theorem milestones_transport_error_not_aborting :
    cycleAborted (asyncUpdateData envTrivial (coordinatorInit entryNoExpiry 0) none 0
        cycleInputsMilestoneDown) = false ∧
    (cycleResultSnapshot (asyncUpdateData envTrivial (coordinatorInit entryNoExpiry 0) none 0
        cycleInputsMilestoneDown)).map Snapshot.rotators = some emptyRotators ∧
    (cycleResultSnapshot (asyncUpdateData envTrivial (coordinatorInit entryNoExpiry 0) none 0
        cycleInputsMilestoneDown)).map Snapshot.season_end = some none := by
  refine ⟨by decide, by decide, by decide⟩

/-- C2 (amended): a transport error on the milestones fetch never aborts
the cycle.  Whenever the token step succeeds, `_async_update_data` returns
a fresh snapshot whose rotator buckets are empty and whose season end is
null — the same degradation as a non-200 milestones response. -/
theorem milestones_transport_error_degrades (env : ResolveEnv) (st st' : TokenState)
    (prevData : Option Snapshot) (now : Nat) (inp : CycleInputs)
    (htok : (asyncRefreshTokenIfNeeded st now inp.tokenResp).1 = .ok st')
    (hmil : inp.milestonesResp = .transportError) :
    cycleAborted (asyncUpdateData env st prevData now inp) = false ∧
    (cycleResultSnapshot (asyncUpdateData env st prevData now inp)).map Snapshot.rotators
      = some emptyRotators ∧
    (cycleResultSnapshot (asyncUpdateData env st prevData now inp)).map Snapshot.season_end
      = some none := by
  unfold asyncUpdateData
  rw [htok, hmil]
  refine ⟨rfl, ?_, ?_⟩ <;>
    simp [cycleResultSnapshot, fetchMilestones, milestonesDefault, emptyRotators]

/-- C2 witness: the amended statement applied to the concrete
milestones-down cycle. -/
theorem milestones_transport_error_degrades_witness :
    cycleAborted (asyncUpdateData envTrivial (coordinatorInit entryNoExpiry 0) none 0
        cycleInputsMilestoneDown) = false ∧
    (cycleResultSnapshot (asyncUpdateData envTrivial (coordinatorInit entryNoExpiry 0) none 0
        cycleInputsMilestoneDown)).map Snapshot.rotators = some emptyRotators :=
  ⟨(milestones_transport_error_degrades envTrivial (coordinatorInit entryNoExpiry 0)
      (coordinatorInit entryNoExpiry 0) none 0 cycleInputsMilestoneDown rfl rfl).1,
   (milestones_transport_error_degrades envTrivial (coordinatorInit entryNoExpiry 0)
      (coordinatorInit entryNoExpiry 0) none 0 cycleInputsMilestoneDown rfl rfl).2.1⟩

/-- A due refresh answered by a failing outcome (non-200 or transport
error) raises `UpdateFailed` after exactly one request. -/
theorem asyncRefresh_fail (st : TokenState) (now e : Nat)
    (resp : HttpOutcome TokenResponseBody) (hexp : st.tokenExpiresAt = some e)
    (hdue : e ≤ now + 5 * 60) (hfail : refreshFails resp = true) :
    ∃ err, asyncRefreshTokenIfNeeded st now resp = (.error err, 1) := by
  have hnot : ¬ (now + 5 * 60 < e) := Nat.not_lt.mpr hdue
  unfold asyncRefreshTokenIfNeeded
  rw [hexp]
  cases resp with
  | transportError => exact ⟨⟨"Token refresh error"⟩, by simp [hnot]⟩
  | response status body =>
    have hs : status ≠ 200 := by simpa [refreshFails] using hfail
    exact ⟨⟨"Failed to refresh access token"⟩, by simp [hnot, hs]⟩

/-- C4: a failed token refresh (non-200 such as 401, or a transport error)
raises a cycle-aborting error from `_async_update_data`, leaves every
stored credential field untouched, and the (spec-modelled) host framework
keeps the previous snapshot and state unchanged — the cycle never continues
with the stale token. -/
theorem failed_refresh_preserves_state (env : ResolveEnv) (st : TokenState)
    (prevData : Option Snapshot) (now e : Nat) (inp : CycleInputs)
    (hexp : st.tokenExpiresAt = some e) (hdue : e ≤ now + 5 * 60)
    (hfail : refreshFails inp.tokenResp = true) :
    (∃ err, (asyncRefreshTokenIfNeeded st now inp.tokenResp).1 = .error err) ∧
    cycleAborted (asyncUpdateData env st prevData now inp) = true ∧
    runCycle env st prevData now inp = (prevData, st) := by
  obtain ⟨err, herr⟩ := asyncRefresh_fail st now e inp.tokenResp hexp hdue hfail
  have h1 : (asyncRefreshTokenIfNeeded st now inp.tokenResp).1 = .error err := by
    rw [herr]
  refine ⟨⟨err, h1⟩, ?_, ?_⟩
  · unfold asyncUpdateData
    rw [h1]
    rfl
  · unfold runCycle asyncUpdateData
    rw [h1]

/-- C4 witness: an expired token whose refresh is rejected with HTTP 401
aborts the cycle and leaves both the previous snapshot (42 vault items) and
the credential state exactly as they were. -/
theorem failed_refresh_preserves_state_witness :
    runCycle envTrivial (coordinatorInit entryExpired 0) (some prevSnapshot42) 0
        cycleInputsAuthDown
      = (some prevSnapshot42, coordinatorInit entryExpired 0) :=
  (failed_refresh_preserves_state envTrivial (coordinatorInit entryExpired 0)
      (some prevSnapshot42) 0 0 cycleInputsAuthDown rfl (by decide) (by decide)).2.2
